import Mathlib

/-!
# Verification of the bounded-step Google-Maps agent loop

Shallow embedding of `mcp_servers/google_map_tool_async.py`: the JSON-reply
extractor `_parse_json_output`, the browser action adapter
(`GoogleMapsBrowser`), the dispatcher (`GoogleMapsAgent.act`), and the
bounded agent loop (`GoogleMapsAgent.run_task`,
`run_google_maps_task_api`).

Python strings are modelled over their character lists (ASCII semantics for
`lower`/`isdigit`/`\w`/whitespace, which covers every string the program
builds).  Python exceptions are modelled with an explicit `Except` result;
the browser side effects are modelled by a state record plus a call trace,
with the unknowable DOM condition of the live page abstracted into a static
`WorldCfg` of success flags.
-/

set_option maxRecDepth 4000

namespace GMap

/-- Python `str` whitespace (ASCII fragment): the characters stripped by
`str.strip()` and matched by the regex class `\s`. -/
def isPyWs (c : Char) : Bool :=
  c = ' ' || c = '\t' || c = '\n' || c = '\r' || c = '\x0b' || c = '\x0c'

/-- Drop trailing characters satisfying `p` (helper for `strip`). -/
def dropTrailing (p : Char → Bool) (l : List Char) : List Char :=
  (l.reverse.dropWhile p).reverse

/-- Python `str.strip()` on a character list. -/
def stripL (l : List Char) : List Char :=
  dropTrailing isPyWs (l.dropWhile isPyWs)

/-- Python `str.strip()`. -/
def pyStrip (s : String) : String := String.mk (stripL s.data)

/-- ASCII `str.lower()` on one character. -/
def lowerChar (c : Char) : Char :=
  if 'A' ≤ c ∧ c ≤ 'Z' then Char.ofNat (c.toNat + 32) else c

/-- Python `str.lower()` (ASCII fragment). -/
def pyLower (s : String) : String := String.mk (s.data.map lowerChar)

/-- Decimal digit test, as used by `str.isdigit()` (ASCII fragment). -/
def isPyDigit (c : Char) : Bool := '0' ≤ c ∧ c ≤ '9'

/-- Python `str.isdigit()`: nonempty and all digits. -/
def pyIsdigit (s : String) : Bool :=
  !s.data.isEmpty && s.data.all isPyDigit

/-- Regex class `\w` (ASCII): letters, digits, underscore. -/
def isWordChar (c : Char) : Bool :=
  ('a' ≤ c ∧ c ≤ 'z') || ('A' ≤ c ∧ c ≤ 'Z') || isPyDigit c || c = '_'

/-- Value of a digit character. -/
def digitVal (c : Char) : Nat := c.toNat - '0'.toNat

/-- Decimal value of a digit list (most significant first). -/
def digitsVal (l : List Char) : Nat :=
  l.foldl (fun acc c => acc * 10 + digitVal c) 0

/-- Python `int(s)` on an already-stripped token: optional sign followed by
at least one digit.  (CPython additionally allows `_` separators between
digits; no string in this development uses them.) -/
def pyInt (s : String) : Option Int :=
  match s.data with
  | '-' :: rest =>
      if !rest.isEmpty && rest.all isPyDigit then some (-(digitsVal rest : Int)) else none
  | '+' :: rest =>
      if !rest.isEmpty && rest.all isPyDigit then some ((digitsVal rest : Int)) else none
  | l =>
      if !l.isEmpty && l.all isPyDigit then some ((digitsVal l : Int)) else none

/-- `List.isPrefixOf` by another name, kept `Bool`-valued for executability. -/
def isPrefixL (pat l : List Char) : Bool :=
  match pat, l with
  | [], _ => true
  | _ :: _, [] => false
  | p :: ps, c :: cs => p = c && isPrefixL ps cs

/-- Index of the first occurrence of `pat` in `l` at or after offset `i`
(the scanning behaviour of `re.search` for a literal prefix). -/
def findSubstrAux (pat : List Char) : List Char → Nat → Option Nat
  | [], i => if pat.isEmpty then some i else none
  | c :: cs, i =>
      if isPrefixL pat (c :: cs) then some i else findSubstrAux pat cs (i + 1)

/-- Index of the first occurrence of `pat` in `l`, if any. -/
def findSubstr (pat l : List Char) : Option Nat := findSubstrAux pat l 0

/-- Python `needle in haystack` for strings. -/
def containsSubstr (haystack needle : String) : Bool :=
  (findSubstr needle.data haystack.data).isSome

/-! ## JSON values and `json.loads`

A model of the fragment of Python's `json` library the program exercises:
objects, arrays, strings (with the standard escapes), integers, booleans
and `null`.  (Floating-point literals never occur in any reply this
development evaluates and are not modelled.)  `json.loads` keeps the last
binding of a duplicated object key, so lookups below scan from the right. -/

inductive Json where
  | jnull : Json
  | jbool : Bool → Json
  | jnum : Int → Json
  | jstr : String → Json
  | jarr : List Json → Json
  | jobj : List (String × Json) → Json

/-- JSON whitespace accepted between tokens by `json.loads`. -/
def isJsonWs (c : Char) : Bool :=
  c = ' ' || c = '\t' || c = '\n' || c = '\r'

/-- Skip JSON inter-token whitespace. -/
def skipWs (l : List Char) : List Char := l.dropWhile isJsonWs

/-- Decode one escape character (the character after a backslash). -/
def decodeEsc (c : Char) : Option Char :=
  if c = '"' then some '"'
  else if c = '\\' then some '\\'
  else if c = '/' then some '/'
  else if c = 'b' then some '\x08'
  else if c = 'f' then some '\x0c'
  else if c = 'n' then some '\n'
  else if c = 'r' then some '\r'
  else if c = 't' then some '\t'
  else none

/-- Hex digit value, for `\uXXXX` escapes. -/
def hexVal (c : Char) : Option Nat :=
  if '0' ≤ c ∧ c ≤ '9' then some (c.toNat - '0'.toNat)
  else if 'a' ≤ c ∧ c ≤ 'f' then some (c.toNat - 'a'.toNat + 10)
  else if 'A' ≤ c ∧ c ≤ 'F' then some (c.toNat - 'A'.toNat + 10)
  else none

/-- Parse the body of a JSON string literal (after the opening quote),
returning the decoded string and the input after the closing quote.
Strict mode: raw control characters are rejected, as in `json.loads`. -/
def parseJStr (acc : List Char) : List Char → Option (String × List Char)
  | [] => none
  | c :: rest =>
      if c = '"' then some (String.mk acc.reverse, rest)
      else if c = '\\' then
        match rest with
        | [] => none
        | 'u' :: h1 :: h2 :: h3 :: h4 :: rest2 =>
            match hexVal h1, hexVal h2, hexVal h3, hexVal h4 with
            | some a, some b, some c2, some d =>
                parseJStr (Char.ofNat (((a * 16 + b) * 16 + c2) * 16 + d) :: acc) rest2
            | _, _, _, _ => none
        | e :: rest2 =>
            match decodeEsc e with
            | some d => parseJStr (d :: acc) rest2
            | none => none
      else if c.toNat < 0x20 then none
      else parseJStr (c :: acc) rest

/-- Parse a JSON integer literal: optional `-`, then digits with no
superfluous leading zero (as `json.loads` requires). -/
def parseJNum (l : List Char) : Option (Int × List Char) :=
  let core : List Char → Option (Nat × List Char) := fun m =>
    let digs := m.takeWhile isPyDigit
    let rest := m.dropWhile isPyDigit
    if digs.isEmpty then none
    else if digs.length > 1 && digs.headI = '0' then none
    else some (digitsVal digs, rest)
  match l with
  | '-' :: m => (core m).map fun (n, rest) => (-(n : Int), rest)
  | m => (core m).map fun (n, rest) => ((n : Int), rest)

mutual

/-- Parse one JSON value at the head of the input (fuel-indexed; every
recursive call consumes at least the opening token, so any fuel at least
the input length suffices). -/
def parseJVal : Nat → List Char → Option (Json × List Char)
  | 0, _ => none
  | fuel + 1, l =>
      match l with
      | '"' :: rest => (parseJStr [] rest).map fun (s, r) => (Json.jstr s, r)
      | '{' :: rest =>
          let rest := skipWs rest
          match rest with
          | '}' :: r => some (Json.jobj [], r)
          | _ => parseJMems fuel rest []
      | '[' :: rest =>
          let rest := skipWs rest
          match rest with
          | ']' :: r => some (Json.jarr [], r)
          | _ => parseJElems fuel rest []
      | 't' :: 'r' :: 'u' :: 'e' :: rest => some (Json.jbool true, rest)
      | 'f' :: 'a' :: 'l' :: 's' :: 'e' :: rest => some (Json.jbool false, rest)
      | 'n' :: 'u' :: 'l' :: 'l' :: rest => some (Json.jnull, rest)
      | _ => (parseJNum l).map fun (n, r) => (Json.jnum n, r)

/-- Parse the members of a JSON object after `{` (at least one member). -/
def parseJMems : Nat → List Char → List (String × Json) → Option (Json × List Char)
  | 0, _, _ => none
  | fuel + 1, l, acc =>
      match l with
      | '"' :: rest =>
          match parseJStr [] rest with
          | none => none
          | some (key, r1) =>
              match skipWs r1 with
              | ':' :: r2 =>
                  match parseJVal fuel (skipWs r2) with
                  | none => none
                  | some (v, r3) =>
                      match skipWs r3 with
                      | ',' :: r4 => parseJMems fuel (skipWs r4) ((key, v) :: acc)
                      | '}' :: r4 => some (Json.jobj (((key, v) :: acc).reverse), r4)
                      | _ => none
              | _ => none
      | _ => none

/-- Parse the elements of a JSON array after `[` (at least one element). -/
def parseJElems : Nat → List Char → List Json → Option (Json × List Char)
  | 0, _, _ => none
  | fuel + 1, l, acc =>
      match parseJVal fuel l with
      | none => none
      | some (v, r1) =>
          match skipWs r1 with
          | ',' :: r2 => parseJElems fuel (skipWs r2) (v :: acc)
          | ']' :: r2 => some (Json.jarr ((v :: acc).reverse), r2)
          | _ => none

end

/-- `json.loads`: parse a full document; anything but trailing whitespace
after the value is a `JSONDecodeError` (`none`). -/
def jsonLoads (s : String) : Option Json :=
  match parseJVal (s.data.length + 1) (skipWs s.data) with
  | some (v, rest) => if (skipWs rest).isEmpty then some v else none
  | none => none

/-- Right-biased key lookup: `dict.get` after `json.loads`, where a
duplicated key keeps its last binding. -/
def jlookup (fields : List (String × Json)) (key : String) : Option Json :=
  match fields.reverse.find? (fun kv => kv.fst = key) with
  | some kv => some kv.snd
  | none => none

/-- A single-quote character, used by the Python `repr`-style renderer. -/
def sqChar : Char := Char.ofNat 39

/-- Depth-bounded model of Python `str()` applied to a decoded JSON value
(as interpolated by the source's f-strings); only ever applied here to
values of depth far below the fuel. -/
def pyReprJson : Nat → Json → String
  | 0, _ => ""
  | _ + 1, Json.jnull => "None"
  | _ + 1, Json.jbool true => "True"
  | _ + 1, Json.jbool false => "False"
  | _ + 1, Json.jnum n => toString n
  | _ + 1, Json.jstr s => String.mk (sqChar :: s.data ++ [sqChar])
  | fuel + 1, Json.jarr xs =>
      "[" ++ String.intercalate ", " (xs.map (pyReprJson fuel)) ++ "]"
  | fuel + 1, Json.jobj fs =>
      "\x7b" ++ String.intercalate ", "
        (fs.map fun kv =>
          String.mk (sqChar :: kv.fst.data ++ [sqChar]) ++ ": " ++ pyReprJson fuel kv.snd)
        ++ "\x7d"

/-! ## `_parse_json_output` (source lines 73–99)

`re.search(r'<fence>(?:json)?\s*(.*?)\s*<fence>', text, re.DOTALL)` for a
literal three-character fence (``` or \x22\x22\x22) followed by
`.group(1).strip()` reduces to: find the first fence, optionally consume a
literal `json`, and take the whitespace-stripped slice up to the next
fence.  If the first fence is never closed there is only one fence in the
whole text, so the regex has no match from any start position. -/

/-- Model of the fenced-payload extraction for fence character `d`
(`d = '`'` for the Markdown pattern, `d = '"'` for the triple-quote
pattern). -/
def extractDelim (d : Char) (text : List Char) : Option (List Char) :=
  match findSubstr [d, d, d] text with
  | none => none
  | some i =>
      let after := text.drop (i + 3)
      let after2 := if isPrefixL ['j', 's', 'o', 'n'] after then after.drop 4 else after
      match findSubstr [d, d, d] after2 with
      | none => none
      | some m => some (stripL (after2.take m))

/-- Does the remainder after a comma complete a match of
`,\s*[}\]][^\]}]*$` (whitespace, a closing bracket, then no further
closing bracket up to the end)? -/
def trailingTailMatches (rest : List Char) : Bool :=
  match rest.dropWhile isPyWs with
  | [] => false
  | c :: r => (c = '}' || c = ']') && r.all (fun x => !(x = ']' || x = '}'))

/-- Position of the leftmost match of `,\s*[}\]][^\]}]*$`, if any. -/
def findTrailingCut : List Char → Nat → Option Nat
  | [], _ => none
  | c :: rest, i =>
      if c = ',' && trailingTailMatches rest then some i
      else findTrailingCut rest (i + 1)

/-- `re.sub(r',\s*[}\]][^\]}]*$', '', text)`: the match is anchored at the
end, so at most the leftmost match is removed. -/
def pySubTrailing (text : List Char) : List Char :=
  match findTrailingCut text 0 with
  | some i => text.take i
  | none => text

mutual

/-- `re.sub(r'(\w+):', r'"\1":', text)`, scanning outside a word run.  A
shorter prefix of a maximal word run is followed by a word character,
never by `:`, so the regex fires exactly on maximal runs followed by `:`. -/
def quoteKeysScan : List Char → List Char
  | [] => []
  | c :: rest =>
      if isWordChar c then quoteKeysRun [c] rest
      else c :: quoteKeysScan rest

/-- `re.sub(r'(\w+):', r'"\1":', text)`, inside a word run accumulated in
reverse in `run`. -/
def quoteKeysRun (run : List Char) : List Char → List Char
  | [] => run.reverse
  | c :: rest =>
      if isWordChar c then quoteKeysRun (c :: run) rest
      else if c = ':' then '"' :: (run.reverse ++ '"' :: ':' :: quoteKeysScan rest)
      else run.reverse ++ c :: quoteKeysScan rest

end

/-- The second repair substitution of `_parse_json_output`. -/
def pySubQuoteKeys (text : List Char) : List Char := quoteKeysScan text

/-- `_parse_json_output` (source lines 73–99): extract a Markdown-fenced
payload, then a triple-quoted payload, then `json.loads`; on failure run
the two repair substitutions and retry; on a second failure return the
error dictionary. -/
def parse_json_output (text : String) : Json :=
  let t1 : List Char :=
    match extractDelim '`' text.data with
    | some inner => inner
    | none => text.data
  let t2 : List Char :=
    match extractDelim '"' t1 with
    | some inner => inner
    | none => t1
  match jsonLoads (String.mk t2) with
  | some v => v
  | none =>
      let t3 := pySubQuoteKeys (pySubTrailing t2)
      match jsonLoads (String.mk t3) with
      | some v => v
      | none => Json.jobj [("error", Json.jstr "Failed to parse JSON output")]

/-! ## The environment adapter: `GoogleMapsBrowser`

The live page is abstracted into a static `WorldCfg` of condition flags
(which buttons exist and whether the low-level clicks succeed) plus a
dynamic `Browser` state (page open, current URL, street-view heading, a
trace of the adapter methods invoked).  A method records itself in the
trace on entry, exactly when the Python method is entered. -/

/-- Python exceptions that can escape to `run_task` (`act` catches every
exception raised below it). -/
inductive PyExc where
  | launchError : PyExc
  | gotoError : PyExc
  | transportError : PyExc
deriving DecidableEq

/-- `str(e)` for the exceptions above (diagnostic text only; no claim
depends on the exact wording). -/
def excMsg : PyExc → String
  | PyExc.launchError => "browser launch failed"
  | PyExc.gotoError => "page.goto failed"
  | PyExc.transportError => "model call failed"

/-- A parsed action argument: Python `int` or `str`. -/
inductive ArgV where
  | intV : Int → ArgV
  | strV : String → ArgV
deriving DecidableEq

/-- f-string rendering of an argument value. -/
def argRender : ArgV → String
  | ArgV.intV n => toString n
  | ArgV.strV s => s

/-- Trace entry: one `GoogleMapsBrowser` method invocation. -/
inductive BrowserCall where
  | clickId : ArgV → BrowserCall
  | enterStreetView : BrowserCall
  | clickMarker : Int → BrowserCall
  | moveForward : BrowserCall
  | moveBackward : BrowserCall
  | turnLeft : BrowserCall
  | turnRight : BrowserCall
  | showDates : BrowserCall
  | selectDate : ArgV → BrowserCall
  | flipView : BrowserCall
  | moveLeftCall : BrowserCall
  | moveRightCall : BrowserCall
  | findText : ArgV → BrowserCall
  | clickBlank : BrowserCall
  | stopCall : BrowserCall
  | visitPageCall : String → BrowserCall
  | initCall : BrowserCall
  | closeCall : BrowserCall
deriving DecidableEq

/-- Static condition of the outside world (DOM state of the live page and
reliability of the low-level driver commands), fixed for one Session. -/
structure WorldCfg where
  /-- `playwright.chromium.launch` (or context/page creation) raises. -/
  initThrows : Bool
  /-- `page.goto` raises (bad URL / timeout). -/
  gotoThrows : Bool
  /-- one of the four street-view buttons is present and visible, and its
  click (plus the confirmation locator click) succeeds. -/
  streetViewBtn : Bool
  /-- the confirmation click inside `enter_street_view` succeeds. -/
  svConfirmOk : Bool
  /-- aria-labels of the visible `.hfpxzc` markers (in index order). -/
  markers : List String
  /-- number of DOM elements, for `click_id` with an integer index. -/
  elemCount : Int
  /-- the located element's scroll+click succeeds. -/
  clickIdOk : Bool
  /-- element ids present on the page, for `click_id` with a string id. -/
  idSelectors : List String
  /-- the counterclockwise-rotation button is present and visible. -/
  turnLeftBtn : Bool
  /-- the clockwise-rotation button is present and visible. -/
  turnRightBtn : Bool
  /-- the centre-of-screen click of `street_view_move_forward` succeeds. -/
  forwardOk : Bool
  /-- the ArrowDown key press of `street_view_move_backward` succeeds. -/
  backwardOk : Bool
  /-- the "more dates" button is present and visible. -/
  datePanelButton : Bool
  /-- aria-labels of the historical-date buttons. -/
  dateLabels : List String
  /-- a date button is already query-able (the panel is open). -/
  datePanelOpen : Bool
  /-- the Ctrl+F/type sequence of `find_text_on_page` succeeds. -/
  findTextOk : Bool
  /-- the corner click of `click_blank_area` succeeds. -/
  clickBlankOk : Bool
  /-- `self.model.step`: the reply content of the n-th oracle call, or
  `none` when the call raises a transport error. -/
  oracle : Nat → Option String

/-- Dynamic state of one `GoogleMapsBrowser`. -/
structure Browser where
  /-- `self.page` exists and is not closed. -/
  pageOpen : Bool
  /-- `self.page_url` (set by `visit_page`). -/
  pageUrl : String
  /-- `self.page_history`. -/
  pageHistory : List String
  /-- street-view heading in degrees (invariant: `< 360`); each rotation
  button turns by 90°. -/
  heading : Nat
  /-- `close()` has run. -/
  closed : Bool
  /-- trace of adapter methods invoked, oldest first. -/
  calls : List BrowserCall
deriving DecidableEq

/-- A freshly constructed `GoogleMapsBrowser` (no page yet). -/
def Browser.fresh : Browser :=
  { pageOpen := false, pageUrl := "", pageHistory := [], heading := 0,
    closed := false, calls := [] }

/-- Append a trace entry. -/
def Browser.trace (b : Browser) (c : BrowserCall) : Browser :=
  { b with calls := b.calls ++ [c] }

namespace GoogleMapsBrowser

/-- `init` (source lines 115–124): launch the browser and open a page. -/
def init (cfg : WorldCfg) (b : Browser) : Except PyExc Unit × Browser :=
  let b := b.trace BrowserCall.initCall
  if cfg.initThrows then (Except.error PyExc.launchError, b)
  else (Except.ok (), { b with pageOpen := true, heading := 0 })

/-- `visit_page` (lines 138–146): silently a no-op without a page;
otherwise `page.goto` (which may raise), then record the URL. -/
def visit_page (cfg : WorldCfg) (url : String) (b : Browser) :
    Except PyExc Unit × Browser :=
  let b := b.trace (BrowserCall.visitPageCall url)
  if !b.pageOpen then (Except.ok (), b)
  else if cfg.gotoThrows then (Except.error PyExc.gotoError, b)
  else (Except.ok (), { b with pageUrl := url, pageHistory := b.pageHistory ++ [url] })

/-- `click_id` (lines 148–174): by index (bounds-checked against the
element list) or by id selector; a failed click is caught and reported as
`False`. -/
def click_id (cfg : WorldCfg) (identifier : ArgV) (b : Browser) : Bool × Browser :=
  let b := b.trace (BrowserCall.clickId identifier)
  if !b.pageOpen then (false, b)
  else
    match identifier with
    | ArgV.intV n => (decide (n < cfg.elemCount) && cfg.clickIdOk, b)
    | ArgV.strV s => (cfg.idSelectors.contains s && cfg.clickIdOk, b)

/-- Result of `enter_street_view`: `Union[bool, List[Dict]]`. -/
inductive EnterSVResult where
  | boolRes : Bool → EnterSVResult
  | markersRes : List (Nat × String) → EnterSVResult
deriving DecidableEq

/-- `enter_street_view` (lines 176–223): click a street-view button when
one is visible (plus the confirmation click), else return the visible
markers. -/
def enter_street_view (cfg : WorldCfg) (b : Browser) : EnterSVResult × Browser :=
  let b := b.trace BrowserCall.enterStreetView
  if !b.pageOpen then (EnterSVResult.boolRes false, b)
  else if cfg.streetViewBtn then
    if cfg.svConfirmOk then (EnterSVResult.boolRes true, b)
    else (EnterSVResult.boolRes false, b)
  else (EnterSVResult.markersRes cfg.markers.enum, b)

/-- `click_marker` (lines 225–248): bounds-check the index against the
visible markers, click, then report whether `enter_street_view` returned
literal `True`. -/
def click_marker (cfg : WorldCfg) (index : Int) (b : Browser) : Bool × Browser :=
  let b := b.trace (BrowserCall.clickMarker index)
  if !b.pageOpen then (false, b)
  else if !(decide (0 ≤ index) && decide (index < (cfg.markers.length : Int))) then (false, b)
  else
    let (r, b) := enter_street_view cfg b
    match r with
    | EnterSVResult.boolRes true => (true, b)
    | _ => (false, b)

/-- `street_view_move_forward` (lines 250–267): click the screen centre;
`True` unless the click raises. -/
def street_view_move_forward (cfg : WorldCfg) (b : Browser) : Bool × Browser :=
  let b := b.trace BrowserCall.moveForward
  if !b.pageOpen then (false, b)
  else (cfg.forwardOk, b)

/-- `street_view_move_backward` (lines 269–281): press ArrowDown. -/
def street_view_move_backward (cfg : WorldCfg) (b : Browser) : Bool × Browser :=
  let b := b.trace BrowserCall.moveBackward
  if !b.pageOpen then (false, b)
  else (cfg.backwardOk, b)

/-- `street_view_turn_left` (lines 283–300): click the counterclockwise
button when present, rotating the heading by −90° (mod 360). -/
def street_view_turn_left (cfg : WorldCfg) (b : Browser) : Bool × Browser :=
  let b := b.trace BrowserCall.turnLeft
  if !b.pageOpen then (false, b)
  else if cfg.turnLeftBtn then (true, { b with heading := (b.heading + 270) % 360 })
  else (false, b)

/-- `street_view_turn_right` (lines 302–319): clockwise rotation by
+90° (mod 360). -/
def street_view_turn_right (cfg : WorldCfg) (b : Browser) : Bool × Browser :=
  let b := b.trace BrowserCall.turnRight
  if !b.pageOpen then (false, b)
  else if cfg.turnRightBtn then (true, { b with heading := (b.heading + 90) % 360 })
  else (false, b)

/-- Result of `show_historical_dates`: `Union[bool, list]`; only literal
`False` fails the dispatcher's `result is False` test. -/
inductive ShowDatesResult where
  | failed : ShowDatesResult
  | labels : List String → ShowDatesResult
deriving DecidableEq

/-- `show_historical_dates` (lines 321–346): click the "more dates"
button when present and return the date buttons' aria-labels. -/
def show_historical_dates (cfg : WorldCfg) (b : Browser) : ShowDatesResult × Browser :=
  let b := b.trace BrowserCall.showDates
  if !b.pageOpen then (ShowDatesResult.failed, b)
  else if cfg.datePanelButton then (ShowDatesResult.labels cfg.dateLabels, b)
  else (ShowDatesResult.failed, b)

/-- `select_historical_date` (lines 348–374): open the panel if no date
button is query-able yet, then find and click the button whose aria-label
renders the requested date (DOM presence abstracted by membership in
`cfg.dateLabels`). -/
def select_historical_date (cfg : WorldCfg) (date : ArgV) (b : Browser) : Bool × Browser :=
  let b := b.trace (BrowserCall.selectDate date)
  if !b.pageOpen then (false, b)
  else
    let b := if !cfg.datePanelOpen then (show_historical_dates cfg b).snd else b
    if cfg.dateLabels.contains (argRender date) then (true, b)
    else (false, b)

/-- `flip_view` (lines 376–389): two consecutive clockwise rotations, both
attempted, success iff both succeed. -/
def flip_view (cfg : WorldCfg) (b : Browser) : Bool × Browser :=
  let b := b.trace BrowserCall.flipView
  if !b.pageOpen then (false, b)
  else
    let (s1, b) := street_view_turn_right cfg b
    let (s2, b) := street_view_turn_right cfg b
    (s1 && s2, b)

/-- `move_left` (lines 391–415): rotate left 90°, advance, rotate right
90°; each stage returns failure immediately when its primitive fails. -/
def move_left (cfg : WorldCfg) (b : Browser) : Bool × Browser :=
  let b := b.trace BrowserCall.moveLeftCall
  if !b.pageOpen then (false, b)
  else
    let (s1, b) := street_view_turn_left cfg b
    if !s1 then (false, b)
    else
      let (s2, b) := street_view_move_forward cfg b
      if !s2 then (false, b)
      else street_view_turn_right cfg b

/-- `move_right` (lines 417–441): rotate right 90°, advance, rotate left
90°; each stage returns failure immediately when its primitive fails. -/
def move_right (cfg : WorldCfg) (b : Browser) : Bool × Browser :=
  let b := b.trace BrowserCall.moveRightCall
  if !b.pageOpen then (false, b)
  else
    let (s1, b) := street_view_turn_right cfg b
    if !s1 then (false, b)
    else
      let (s2, b) := street_view_move_forward cfg b
      if !s2 then (false, b)
      else street_view_turn_left cfg b

/-- `stop` (lines 482–484): always `True`. -/
def stop (b : Browser) : Bool × Browser :=
  let b := b.trace BrowserCall.stopCall
  (true, b)

/-- `get_url` (lines 486–488): the current URL, or `""` without a page.
(Advertised in the action prompt but absent from `GOOGLE_MAPS_ACTIONS`,
so the dispatcher can never reach it.) -/
def get_url (b : Browser) : String :=
  if b.pageOpen then b.pageUrl else ""

/-- `find_text_on_page` (lines 490–502): Ctrl+F and type the query. -/
def find_text_on_page (cfg : WorldCfg) (t : ArgV) (b : Browser) : Bool × Browser :=
  let b := b.trace (BrowserCall.findText t)
  if !b.pageOpen then (false, b)
  else (cfg.findTextOk, b)

/-- `click_blank_area` (lines 504–515): click near the corner. -/
def click_blank_area (cfg : WorldCfg) (b : Browser) : Bool × Browser :=
  let b := b.trace BrowserCall.clickBlank
  if !b.pageOpen then (false, b)
  else (cfg.clickBlankOk, b)

/-- `close` (lines 517–529): close page, context, browser and driver
(its internal exceptions are caught, so this always completes). -/
def close (b : Browser) : Browser :=
  let b := b.trace BrowserCall.closeCall
  { b with pageOpen := false, closed := true }

end GoogleMapsBrowser

/-! ## The action registry and the dispatcher `GoogleMapsAgent.act` -/

/-- `GOOGLE_MAPS_ACTIONS` (source lines 53–70): the action registry the
dispatcher validates against.  Note that `get_url` is absent although the
prompt below advertises it. -/
def GOOGLE_MAPS_ACTIONS : List String :=
  ["click_id",
   "enter_street_view",
   "street_view_move_forward",
   "street_view_move_backward",
   "street_view_turn_left",
   "street_view_turn_right",
   "show_historical_dates",
   "select_historical_date",
   "back",
   "stop",
   "find_text_on_page",
   "click_blank_area",
   "click_marker",
   "flip_view",
   "move_left",
   "move_right"]

/-- `GOOGLE_MAPS_ACTIONS_PROMPT` (source lines 33–51): the human-readable
action catalog sent to the decision oracle. -/
def GOOGLE_MAPS_ACTIONS_PROMPT : String :=
  "\n1. `click_id(identifier: Union[str, int])`: Click an element with the given ID.\n2. `enter_street_view()`: Enter street view mode at the current location. Returns content of visible markers if applicable.\n3. `street_view_move_forward()`: Move forward in street view by clicking on the center.\n4. `street_view_move_backward()`: Move backward in street view by pressing down arrow key.\n5. `street_view_turn_left()`: Turn left in street view (counterclockwise rotation).\n6. `street_view_turn_right()`: Turn right in street view (clockwise rotation).\n7. `show_historical_dates()`: Show the historical dates for the current street view location.\n8. `select_historical_date(date: str)`: Select a specific historical date to view. e.g. July 2010\n11. `back()`: Navigate back to the previous page.\n12. `stop()`: Stop the action process.\n13. `get_url()`: Get the current URL.\n14. `find_text_on_page(search_text: str)`: Find text on the page.\n16. `click_blank_area()`: Click a blank area to unfocus.\n17. `click_marker(index: int)`: After enter_street_view, Click on a map marker by its visible index.\n19. `flip_view()`: Flip street view perspective 180 degrees (executes two consecutive rotations)\n20. `move_left()`: Move left by temporarily rotating CCW 90°, advancing, then restoring direction\n21. `move_right()`: Move right by temporarily rotating CW 90°, advancing, then restoring direction\n"

/-- `re.match(r'(\w+)\(([^)]*)\)', action_code)` followed by
`group(1).strip()` / `group(2).strip()` (source lines 671–675): a maximal
word-character prefix, then `(`, then everything up to the first `)`.  If
the pattern does not match, the whole code is the function name (line
695). -/
def parseInvocation (action_code : String) : String × Option String :=
  let l := action_code.data
  let w := l.takeWhile isWordChar
  let rest := l.dropWhile isWordChar
  match w, rest with
  | _ :: _, '(' :: rest2 =>
      match findSubstr [')'] rest2 with
      | some m => (String.mk w, some (pyStrip (String.mk (rest2.take m))))
      | none => (action_code, none)
  | _, _ => (action_code, none)

/-- `re.match(r'[\'\x22]([^\'\x22]*)[\'\x22]', args_str)` on a character
list (source line 683): an opening quote of either kind, the maximal
quote-free run, then a closing quote of either kind. -/
def quotedMatchL : List Char → Option String
  | [] => none
  | c :: rest =>
      if c = '"' || c = sqChar then
        match rest.dropWhile (fun x => !(x = '"' || x = sqChar)) with
        | _ :: _ => some (String.mk (rest.takeWhile (fun x => !(x = '"' || x = sqChar))))
        | [] => none
      else none

/-- `re.match(r'[\'\x22]([^\'\x22]*)[\'\x22]', args_str)` (source line
683). -/
def quotedMatch (s : String) : Option String := quotedMatchL s.data

/-- The argument-handling block of `act` (source lines 677–693): a
digit-only token becomes `int`, else a quoted token becomes its string
content, else `int(args_str)` is attempted, else the raw token passes
through as a string.  An empty `args_str` leaves the argument `None`. -/
def parseArgValue (args_str : String) : Option ArgV :=
  if args_str.data.isEmpty then none
  else if pyIsdigit args_str then some (ArgV.intV (digitsVal args_str.data))
  else
    match quotedMatch args_str with
    | some s => some (ArgV.strV s)
    | none =>
        match pyInt args_str with
        | some n => some (ArgV.intV n)
        | none => some (ArgV.strV args_str)

/-- Python `repr` of a `str` list, for the interpolation of
`show_historical_dates` results. -/
def renderLabels (ls : List String) : String :=
  "[" ++ String.intercalate ", " (ls.map fun s => String.mk (sqChar :: s.data ++ [sqChar])) ++ "]"

/-- Interpolation of the `markers_info` list (approximation: the real
list holds live element handles whose repr is address-dependent; no claim
depends on this text). -/
def renderMarkersInfo (ms : List (Nat × String)) : String :=
  "[" ++ String.intercalate ", "
    (ms.map fun p => "\x7bindex: " ++ toString p.fst ++ ", title: " ++ p.snd ++ "\x7d") ++ "]"

/-- `TypeError` text for calling an argument-taking adapter method with no
argument (wording approximated without quote characters; no claim depends
on it). -/
def typeErrorMsg (m arg : String) : String :=
  m ++ "() missing 1 required positional argument: " ++ arg

/-- The success/detail pair of the generic `getattr` dispatch branch
(source lines 738–742) for a `bool`-returning method. -/
def boolActionResult (name : String) (r : Bool) : Bool × String :=
  if r then (true, "Executed action: " ++ name ++ ":True")
  else (false, "Executed action: " ++ name)

namespace GoogleMapsAgent

/-- The argument-taking dispatch arm of `act` (source lines 705–725). -/
def dispatchArg (cfg : WorldCfg) (_startUrl : Option String) (func_name : String)
    (arg : ArgV) (b : Browser) : (Bool × String) × Browser :=
  if func_name = "click_id" then
    let (r, b) := GoogleMapsBrowser.click_id cfg arg b
    ((r, "Clicked ID: " ++ argRender arg), b)
  else if func_name = "select_historical_date" then
    let (r, b) := GoogleMapsBrowser.select_historical_date cfg arg b
    ((r, "Selected historical date: " ++ argRender arg), b)
  else if func_name = "find_text_on_page" then
    let (r, b) := GoogleMapsBrowser.find_text_on_page cfg arg b
    ((r, "Searched text: " ++ argRender arg), b)
  else if func_name = "visit_page" then
    -- dead branch: `visit_page` is not registered and the registry check
    -- precedes the dispatch
    match GoogleMapsBrowser.visit_page cfg (argRender arg) b with
    | (Except.ok _, b) => ((true, "Visited page: " ++ argRender arg), b)
    | (Except.error e, b) => ((false, excMsg e), b)
  else if func_name = "click_marker" then
    match arg with
    | ArgV.intV n =>
        let (r, b) := GoogleMapsBrowser.click_marker cfg n b
        ((r, "Clicked marker #" ++ toString n), b)
    | ArgV.strV s => ((false, "Invalid argument for click_marker: " ++ s), b)
  else ((false, "Action " ++ func_name ++ " does not take arguments"), b)

/-- The argument-less dispatch arm of `act` (source lines 727–742):
`enter_street_view` and `back` are special-cased; every other registered
name goes through `getattr`; calling an argument-taking method with no
argument raises `TypeError`, caught by `act`'s handler. -/
def dispatchNoArg (cfg : WorldCfg) (startUrl : Option String) (func_name : String)
    (b : Browser) : (Bool × String) × Browser :=
  if func_name = "enter_street_view" then
    match GoogleMapsBrowser.enter_street_view cfg b with
    | (GoogleMapsBrowser.EnterSVResult.markersRes ms, b) =>
        ((true, "Found " ++ renderMarkersInfo ms ++ " visible markers"), b)
    | (GoogleMapsBrowser.EnterSVResult.boolRes true, b) => ((true, "Entered street view"), b)
    | (GoogleMapsBrowser.EnterSVResult.boolRes false, b) =>
        ((false, "Failed to enter street view"), b)
  else if func_name = "back" then
    match startUrl with
    | none =>
        -- `self.start_url` does not exist before `run_task` sets it:
        -- AttributeError, caught by the handler
        ((false, "GoogleMapsAgent object has no attribute start_url"), b)
    | some u =>
        match GoogleMapsBrowser.visit_page cfg u b with
        | (Except.ok _, b) => ((true, "Executed action: back:True"), b)
        | (Except.error e, b) => ((false, excMsg e), b)
  else if func_name = "click_id" then
    ((false, typeErrorMsg "click_id" "identifier"), b)
  else if func_name = "select_historical_date" then
    ((false, typeErrorMsg "select_historical_date" "date_str"), b)
  else if func_name = "find_text_on_page" then
    ((false, typeErrorMsg "find_text_on_page" "search_text"), b)
  else if func_name = "click_marker" then
    ((false, typeErrorMsg "click_marker" "index"), b)
  else if func_name = "street_view_move_forward" then
    let (r, b) := GoogleMapsBrowser.street_view_move_forward cfg b
    (boolActionResult func_name r, b)
  else if func_name = "street_view_move_backward" then
    let (r, b) := GoogleMapsBrowser.street_view_move_backward cfg b
    (boolActionResult func_name r, b)
  else if func_name = "street_view_turn_left" then
    let (r, b) := GoogleMapsBrowser.street_view_turn_left cfg b
    (boolActionResult func_name r, b)
  else if func_name = "street_view_turn_right" then
    let (r, b) := GoogleMapsBrowser.street_view_turn_right cfg b
    (boolActionResult func_name r, b)
  else if func_name = "show_historical_dates" then
    match GoogleMapsBrowser.show_historical_dates cfg b with
    | (GoogleMapsBrowser.ShowDatesResult.failed, b) =>
        ((false, "Executed action: show_historical_dates"), b)
    | (GoogleMapsBrowser.ShowDatesResult.labels ls, b) =>
        ((true, "Executed action: show_historical_dates:" ++ renderLabels ls), b)
  else if func_name = "stop" then
    let (r, b) := GoogleMapsBrowser.stop b
    (boolActionResult func_name r, b)
  else if func_name = "click_blank_area" then
    let (r, b) := GoogleMapsBrowser.click_blank_area cfg b
    (boolActionResult func_name r, b)
  else if func_name = "flip_view" then
    let (r, b) := GoogleMapsBrowser.flip_view cfg b
    (boolActionResult func_name r, b)
  else if func_name = "move_left" then
    let (r, b) := GoogleMapsBrowser.move_left cfg b
    (boolActionResult func_name r, b)
  else if func_name = "move_right" then
    let (r, b) := GoogleMapsBrowser.move_right cfg b
    (boolActionResult func_name r, b)
  else
    -- unreachable for registered names; `getattr` would raise
    -- AttributeError, caught by the handler
    ((false, "GoogleMapsBrowser object has no attribute " ++ func_name), b)

/-- `GoogleMapsAgent.act` (source lines 660–746): strip, short-circuit the
literal stop words, parse the invocation, validate the name against
`GOOGLE_MAPS_ACTIONS`, then dispatch.  Every exception below is caught
(lines 744–746), so the result is always a `(bool, str)` pair. -/
def act (cfg : WorldCfg) (startUrl : Option String) (b : Browser)
    (action_code0 : String) : (Bool × String) × Browser :=
  let ac := pyStrip action_code0
  if ["stop", "done", "exit"].contains (pyLower ac) then ((true, "Task completed"), b)
  else
    let fa := parseInvocation ac
    let argv : Option ArgV :=
      match fa.snd with
      | none => none
      | some a => parseArgValue a
    if !(GOOGLE_MAPS_ACTIONS.contains fa.fst) then
      ((false, "Invalid action: " ++ fa.fst), b)
    else
      match argv with
      | some v => dispatchArg cfg startUrl fa.fst v b
      | none => dispatchNoArg cfg startUrl fa.fst b

end GoogleMapsAgent

/-! ## The agent loop: `observe`, `run_task`, `run_google_maps_task_api`

The oracle (`self.model.step`) is modelled by `cfg.oracle`, a script from
the call counter to the reply content (`none` = the call raises a
transport error).  The prompt built from the task, catalog, screenshot and
history only influences the external oracle and so is absorbed into the
script. -/

/-- One entry of `self.history` (`step_info`, source lines 761–780). -/
structure StepRecord where
  step : Nat
  observation : String
  reasoning : String
  action_code : String
  /-- `some "stopped"` on the explicit stop path (line 770). -/
  status : Option String
  /-- present after an executed action (line 776). -/
  success : Option Bool
  /-- present after an executed action (line 778). -/
  result_info : Option String
deriving DecidableEq

/-- The mutable fields of one `GoogleMapsAgent`, plus the oracle-call
counter addressing `cfg.oracle`. -/
structure AgentState where
  browser : Browser
  history : List StepRecord
  /-- `self.start_url`: absent until `run_task` assigns it. -/
  startUrl : Option String
  /-- number of `self.model.step` calls issued so far. -/
  oracleCalls : Nat
deriving DecidableEq

/-- A freshly constructed `GoogleMapsAgent` (source lines 533–536). -/
def AgentState.fresh : AgentState :=
  { browser := Browser.fresh, history := [], startUrl := none, oracleCalls := 0 }

/-- `dict.get(key, '')` where a non-string value is rendered by the later
f-string interpolation. -/
def getFieldStr (fields : List (String × Json)) (key : String) : String :=
  match jlookup fields key with
  | some (Json.jstr s) => s
  | some j => pyReprJson 1000 j
  | none => ""

/-- The reply-decoding tail of `observe` (source lines 645–658): the
`final_answer` short-circuit compares `action_code.lower()` (unstripped)
and returns the `answer` payload in the reasoning slot; a non-string
`action_code` raises at `.lower()`/`.strip()` and the handler returns
three empty strings, as does a non-dict reply at `.get`. -/
def observeParse (parsed : Json) : String × String × String :=
  match parsed with
  | Json.jobj fields =>
      match jlookup fields "action_code" with
      | some (Json.jstr a) =>
          if pyLower a = "final_answer" then ("", getFieldStr fields "answer", pyStrip a)
          else (getFieldStr fields "observation", getFieldStr fields "reasoning", pyStrip a)
      | none => (getFieldStr fields "observation", getFieldStr fields "reasoning", "")
      | some _ => ("", "", "")
  | _ => ("", "", "")

/-- `GoogleMapsAgent.observe` (source lines 557–658): without a page the
decision is a literal `("", "", "stop")` and no oracle call is made;
otherwise the page is screenshotted (modelled as always succeeding on an
open page) and one oracle call is issued (a transport failure propagates —
the `model.step` call sits outside the `try`) and its content is
decoded. -/
def observe (cfg : WorldCfg) (st : AgentState) :
    Except PyExc (String × String × String) × AgentState :=
  if !st.browser.pageOpen then (Except.ok ("", "", "stop"), st)
  else
    match cfg.oracle st.oracleCalls with
    | none => (Except.error PyExc.transportError, { st with oracleCalls := st.oracleCalls + 1 })
    | some content =>
        (Except.ok (observeParse (parse_json_output content)),
         { st with oracleCalls := st.oracleCalls + 1 })

/-- `GoogleMapsAgent._generate_final_answer` (source lines 791–822): one
oracle call over the full history; its exceptions are caught and replaced
by the fixed failure string. -/
def generate_final_answer (cfg : WorldCfg) (st : AgentState) : String × AgentState :=
  match cfg.oracle st.oracleCalls with
  | none => ("Failed to complete the task", { st with oracleCalls := st.oracleCalls + 1 })
  | some content => (content, { st with oracleCalls := st.oracleCalls + 1 })

/-- How the `for` loop of `run_task` was exited. -/
inductive LoopExit where
  /-- `return reasoning` on a `final_answer` decision (line 758). -/
  | finalAnswer : String → LoopExit
  /-- `break` on an explicit stop decision (lines 769–772). -/
  | stoppedByDecision : LoopExit
  /-- `break` because the result description contains stop/done (786–787). -/
  | resultStop : LoopExit
  /-- all iterations ran without a break or return. -/
  | exhausted : LoopExit
deriving DecidableEq

/-- `MAX_STEPS` (source line 754). -/
def MAX_STEPS : Nat := 15

/-- The `for step in range(MAX_STEPS)` body of `run_task` (source lines
755–787), with the control flow reified in `LoopExit`.  `fuel` counts the
remaining iterations and `stepIdx` the Python loop index. -/
def runLoop (cfg : WorldCfg) : Nat → Nat → AgentState → Except PyExc LoopExit × AgentState
  | 0, _, st => (Except.ok LoopExit.exhausted, st)
  | fuel + 1, stepIdx, st =>
      match observe cfg st with
      | (Except.error e, st1) => (Except.error e, st1)
      | (Except.ok (obs, reasoning, action_code), st1) =>
          if action_code = "final_answer" then
            (Except.ok (LoopExit.finalAnswer reasoning), st1)
          else if ["stop", "exit", "done"].contains (pyLower action_code) then
            let r : StepRecord :=
              { step := stepIdx, observation := obs, reasoning := reasoning,
                action_code := action_code, status := some "stopped",
                success := none, result_info := none }
            (Except.ok LoopExit.stoppedByDecision, { st1 with history := st1.history ++ [r] })
          else
            let ab := GoogleMapsAgent.act cfg st1.startUrl st1.browser action_code
            let r : StepRecord :=
              { step := stepIdx, observation := obs, reasoning := reasoning,
                action_code := action_code, status := none,
                success := some ab.fst.fst, result_info := some ab.fst.snd }
            let st2 : AgentState := { st1 with browser := ab.snd, history := st1.history ++ [r] }
            if containsSubstr (pyLower ab.fst.snd) "stop"
                || containsSubstr (pyLower ab.fst.snd) "done" then
              (Except.ok LoopExit.resultStop, st2)
            else runLoop cfg fuel (stepIdx + 1) st2

/-- The head of `run_task` (source lines 750–752): record the start URL,
launch the browser, visit the start page.  Neither call is guarded, so
their exceptions propagate. -/
def initPhase (cfg : WorldCfg) (start_url : String) (st : AgentState) :
    Except PyExc Unit × AgentState :=
  match GoogleMapsBrowser.init cfg st.browser with
  | (Except.error e, b) => (Except.error e, { st with startUrl := some start_url, browser := b })
  | (Except.ok _, b) =>
      match GoogleMapsBrowser.visit_page cfg start_url b with
      | (Except.error e, b2) =>
          (Except.error e, { st with startUrl := some start_url, browser := b2 })
      | (Except.ok _, b2) =>
          (Except.ok (), { st with startUrl := some start_url, browser := b2 })

/-- The tail of `run_task` (source lines 758 and 789): a `final_answer`
decision returns its payload directly; every other loop exit falls through
to `_generate_final_answer`. -/
def finishRun (cfg : WorldCfg) (ex : LoopExit) (st : AgentState) :
    Except PyExc String × AgentState :=
  match ex with
  | LoopExit.finalAnswer r => (Except.ok r, st)
  | _ =>
      let p := generate_final_answer cfg st
      (Except.ok p.fst, p.snd)

/-- `GoogleMapsAgent.run_task` (source lines 748–789). -/
def run_task (cfg : WorldCfg) (start_url : String) (st : AgentState) :
    Except PyExc String × AgentState :=
  match initPhase cfg start_url st with
  | (Except.error e, st1) => (Except.error e, st1)
  | (Except.ok _, st1) =>
      match runLoop cfg MAX_STEPS 0 st1 with
      | (Except.error e, st2) => (Except.error e, st2)
      | (Except.ok ex, st2) => finishRun cfg ex st2

/-- `run_google_maps_task_api` (source lines 856–865): construct the
agent, run the task, close, return.  There is no `try`/`finally`, so when
`run_task` raises, `agent.close()` is never reached. -/
def run_google_maps_task_api (cfg : WorldCfg) (start_url : String) :
    Except PyExc String × AgentState :=
  match run_task cfg start_url AgentState.fresh with
  | (Except.error e, st1) => (Except.error e, st1)
  | (Except.ok r, st1) =>
      (Except.ok r, { st1 with browser := GoogleMapsBrowser.close st1.browser })

/-! ## Concrete worlds used to evaluate the model -/

/-- A healthy world with no oracle replies scripted (so the first decision
call raises a transport error). -/
def cfgNoOracle : WorldCfg :=
  { initThrows := false, gotoThrows := false, streetViewBtn := false,
    svConfirmOk := true, markers := ["Marker A"], elemCount := 10,
    clickIdOk := true, idSelectors := [], turnLeftBtn := true,
    turnRightBtn := true, forwardOk := true, backwardOk := true,
    datePanelButton := true, dateLabels := ["July 2010"],
    datePanelOpen := true, findTextOk := true, clickBlankOk := true,
    oracle := fun _ => none }

/-- A healthy world whose oracle immediately returns a `final_answer`
decision. -/
def cfgFinalAnswer : WorldCfg :=
  { cfgNoOracle with
    oracle := fun n =>
      if n = 0 then
        some "\x7b\"action_code\": \"final_answer\", \"answer\": \"the answer\"\x7d"
      else none }

/-- A world where the browser launch raises. -/
def cfgInitFail : WorldCfg := { cfgNoOracle with initThrows := true }

/-- A world where the initial `page.goto` raises. -/
def cfgGotoFail : WorldCfg := { cfgNoOracle with gotoThrows := true }

/-- A healthy world whose oracle first picks a search for a query
containing `done`, then (for the fallback synthesis) answers `FB`. -/
def cfgDoneReply : WorldCfg :=
  { cfgNoOracle with
    oracle := fun n =>
      if n = 0 then
        some "\x7b\"observation\": \"o\", \"reasoning\": \"r\", \"action_code\": \"find_text_on_page(\\\"done deal\\\")\"\x7d"
      else some "FB" }

/-- A browser with an open page and an empty trace. -/
def browserOpen : Browser := { Browser.fresh with pageOpen := true }

/-- A browser with an open page, a nonzero heading and an empty trace. -/
def browserHeading40 : Browser := { Browser.fresh with pageOpen := true, heading := 40 }

/-- A healthy world whose advance click fails (for the lateral-move
partial-failure scenario). -/
def cfgNoForward : WorldCfg := { cfgNoOracle with forwardOk := false }

/-- The state on which the loop of `run_task cfgDoneReply "u"` starts:
after `initPhase` has opened the page and visited the start URL. -/
def doneLoopStart : AgentState := (initPhase cfgDoneReply "u" AgentState.fresh).snd

/-- The error dictionary `_parse_json_output` returns when both parse
attempts fail. -/
def parseErrorDict : Json := Json.jobj [("error", Json.jstr "Failed to parse JSON output")]

/-! ## Helper lemmas -/

/-- `observe` never touches the history. -/
lemma observe_history (cfg : WorldCfg) (st : AgentState) :
    ((observe cfg st).snd).history = st.history := by
  unfold observe
  split
  · rfl
  · split <;> rfl

/-- `_generate_final_answer` never touches the history. -/
lemma generate_final_answer_history (cfg : WorldCfg) (st : AgentState) :
    ((generate_final_answer cfg st).snd).history = st.history := by
  unfold generate_final_answer
  split <;> rfl

/-- `finishRun` never touches the history. -/
lemma finishRun_history (cfg : WorldCfg) (ex : LoopExit) (st : AgentState) :
    ((finishRun cfg ex st).snd).history = st.history := by
  unfold finishRun
  cases ex <;> simp [generate_final_answer_history]

/-- `initPhase` never touches the history. -/
lemma initPhase_history (cfg : WorldCfg) (url : String) (st : AgentState) :
    ((initPhase cfg url st).snd).history = st.history := by
  unfold initPhase
  rcases hi : GoogleMapsBrowser.init cfg st.browser with ⟨r1, b1⟩
  cases r1 with
  | error e => rfl
  | ok u =>
      dsimp only
      rcases hv : GoogleMapsBrowser.visit_page cfg url b1 with ⟨r2, b2⟩
      cases r2 <;> rfl

/-- Each loop iteration appends at most one record, so `fuel` iterations
append at most `fuel`. -/
lemma runLoop_history_le (cfg : WorldCfg) :
    ∀ (fuel stepIdx : Nat) (st : AgentState),
      (((runLoop cfg fuel stepIdx st).snd).history).length ≤ st.history.length + fuel := by
  intro fuel
  induction fuel with
  | zero => intro i st; simp [runLoop]
  | succ n ih =>
      intro i st
      rw [runLoop]
      rcases hobs : observe cfg st with ⟨res, st1⟩
      have hh : st1.history = st.history := by
        have h0 := observe_history cfg st
        rw [hobs] at h0
        exact h0
      cases res with
      | error e => simp [hh]
      | ok trip =>
          obtain ⟨obs, reasoning, ac⟩ := trip
          dsimp only
          split
          · simp [hh]
          · split
            · simp [hh]
            · split
              · simp [hh]
              · refine le_trans (ih (i + 1) _) ?_
                simp [hh]
                omega

/-! ## Claim theorems -/

/-- C1: For every Session (one call of `GoogleMapsAgent.run_task`), the
number of `StepRecord`s appended to the history never exceeds the
configured step budget of 15 (`MAX_STEPS`), and if the budget is exhausted
without an explicit termination decision the Controller performs fallback
answer synthesis (`_generate_final_answer` over the full history) rather
than continuing or returning an empty result. -/
theorem run_task_budget_and_fallback (cfg : WorldCfg) (url : String)
    (st st' : AgentState) (r : String)
    (hrun : run_task cfg url st = (Except.ok r, st')) :
    st'.history.length ≤ st.history.length + MAX_STEPS ∧
    (∀ stI st2, initPhase cfg url st = (Except.ok (), stI) →
      runLoop cfg MAX_STEPS 0 stI = (Except.ok LoopExit.exhausted, st2) →
      r = (generate_final_answer cfg st2).fst) := by
  constructor
  · unfold run_task at hrun
    rcases hI : initPhase cfg url st with ⟨rI, stI⟩
    rw [hI] at hrun
    cases rI with
    | error e => simp at hrun
    | ok u =>
        dsimp only at hrun
        rcases hL : runLoop cfg MAX_STEPS 0 stI with ⟨rL, st2⟩
        rw [hL] at hrun
        cases rL with
        | error e => simp at hrun
        | ok ex =>
            have hst' : st' = (finishRun cfg ex st2).snd := by
              dsimp only at hrun
              exact (congrArg Prod.snd hrun).symm
            have h1 : st'.history = st2.history := by
              rw [hst', finishRun_history]
            have h2 := runLoop_history_le cfg MAX_STEPS 0 stI
            rw [hL] at h2
            have h3 : stI.history = st.history := by
              have h0 := initPhase_history cfg url st
              rw [hI] at h0
              exact h0
            rw [h1]
            rw [h3] at h2
            exact h2
  · intro stI st2 hI hL
    unfold run_task at hrun
    rw [hI] at hrun
    dsimp only at hrun
    rw [hL] at hrun
    dsimp only at hrun
    unfold finishRun at hrun
    dsimp only at hrun
    have := congrArg Prod.fst hrun
    dsimp only at this
    exact (Except.ok.injEq _ _).mp this |>.symm

/-- Witness for C1: a concrete healthy Session that terminates with a
`final_answer` decision satisfies the budget bound. -/
theorem run_task_budget_and_fallback_witness :
    (run_task cfgFinalAnswer "u" AgentState.fresh).snd.history.length
      ≤ AgentState.fresh.history.length + MAX_STEPS := by
  have h0 : (run_task cfgFinalAnswer "u" AgentState.fresh).fst
      = Except.ok "the answer" := rfl
  have h : run_task cfgFinalAnswer "u" AgentState.fresh
      = (Except.ok "the answer", (run_task cfgFinalAnswer "u" AgentState.fresh).snd) := by
    rw [← h0]
  exact (run_task_budget_and_fallback cfgFinalAnswer "u" AgentState.fresh
    (run_task cfgFinalAnswer "u" AgentState.fresh).snd "the answer" h).1

/-- C10: After a successfully executed non-termination action, if the
action's result description contains the substring `stop` or `done`
(case-insensitively) — for example `find_text_on_page` invoked with a
query containing `done`, whose result description embeds the query — the
Controller exits the loop (`LoopExit.resultStop`) and proceeds to fallback
answer synthesis even though no termination decision was issued by the
oracle. -/
theorem result_substring_breaks_loop (cfg : WorldCfg) (fuel stepIdx : Nat)
    (st st1 : AgentState) (obs reasoning action_code : String)
    (info : String) (b2 : Browser)
    (hobs : observe cfg st = (Except.ok (obs, reasoning, action_code), st1))
    (hfa : action_code ≠ "final_answer")
    (hstop : (["stop", "exit", "done"].contains (pyLower action_code)) = false)
    (hact : GoogleMapsAgent.act cfg st1.startUrl st1.browser action_code
      = ((true, info), b2))
    (hsub : (containsSubstr (pyLower info) "stop"
        || containsSubstr (pyLower info) "done") = true) :
    runLoop cfg (fuel + 1) stepIdx st
      = (Except.ok LoopExit.resultStop,
         { st1 with browser := b2,
                    history := st1.history ++
                      [{ step := stepIdx, observation := obs, reasoning := reasoning,
                         action_code := action_code, status := none,
                         success := some true, result_info := some info }] }) ∧
    (∀ st3, finishRun cfg LoopExit.resultStop st3
        = (Except.ok (generate_final_answer cfg st3).fst,
           (generate_final_answer cfg st3).snd)) := by
  constructor
  · rw [runLoop, hobs]
    dsimp only
    rw [if_neg hfa, if_neg (by simpa using hstop), hact]
    dsimp only
    rw [if_pos (by simp_all)]
  · intro st3
    rfl

/-- Witness for C10: the concrete world `cfgDoneReply`, whose oracle asks
for a text search for `done deal`; the Searched-text result description
contains `done`, so the loop breaks at the first step. -/
theorem result_substring_breaks_loop_witness :
    (runLoop cfgDoneReply 15 0 doneLoopStart).fst = Except.ok LoopExit.resultStop := by
  have h := result_substring_breaks_loop cfgDoneReply 14 0 doneLoopStart
    { doneLoopStart with oracleCalls := 1 } "o" "r"
    "find_text_on_page(\"done deal\")" "Searched text: done deal"
    (GoogleMapsAgent.act cfgDoneReply
      (some "u") doneLoopStart.browser "find_text_on_page(\"done deal\")").snd
    (by rfl) (by decide) (by rfl)
    (by
      have h0 : (GoogleMapsAgent.act cfgDoneReply (some "u") doneLoopStart.browser
          "find_text_on_page(\"done deal\")").fst
          = (true, "Searched text: done deal") := rfl
      rw [← h0]
      rfl)
    (by rfl)
  rw [show (15 : Nat) = 14 + 1 from rfl, h.1]

/-- C3: The composite lateral-move actions (`move_left`, `move_right`)
execute rotate 90°, then advance, then the opposite rotation; on full
success the heading equals the heading before the move, and if the middle
advance primitive fails the composite returns failure immediately without
executing the restoring rotation, so the environment is left in the
rotated intermediate state. -/
theorem lateral_move_heading (cfg : WorldCfg) (b : Browser)
    (hpage : b.pageOpen = true) (hhead : b.heading < 360) :
    (cfg.turnLeftBtn = true → cfg.forwardOk = true → cfg.turnRightBtn = true →
      (GoogleMapsBrowser.move_left cfg b).fst = true ∧
      ((GoogleMapsBrowser.move_left cfg b).snd).heading = b.heading ∧
      (GoogleMapsBrowser.move_right cfg b).fst = true ∧
      ((GoogleMapsBrowser.move_right cfg b).snd).heading = b.heading) ∧
    (cfg.turnLeftBtn = true → cfg.forwardOk = false →
      (GoogleMapsBrowser.move_left cfg b).fst = false ∧
      ((GoogleMapsBrowser.move_left cfg b).snd).heading = (b.heading + 270) % 360 ∧
      ((GoogleMapsBrowser.move_left cfg b).snd).calls
        = b.calls ++ [BrowserCall.moveLeftCall, BrowserCall.turnLeft,
            BrowserCall.moveForward]) ∧
    (cfg.turnRightBtn = true → cfg.forwardOk = false →
      (GoogleMapsBrowser.move_right cfg b).fst = false ∧
      ((GoogleMapsBrowser.move_right cfg b).snd).heading = (b.heading + 90) % 360 ∧
      ((GoogleMapsBrowser.move_right cfg b).snd).calls
        = b.calls ++ [BrowserCall.moveRightCall, BrowserCall.turnRight,
            BrowserCall.moveForward]) := by
  refine ⟨fun hl hf hr => ?_, fun hl hf => ?_, fun hr hf => ?_⟩
  · unfold GoogleMapsBrowser.move_left GoogleMapsBrowser.move_right
      GoogleMapsBrowser.street_view_turn_left GoogleMapsBrowser.street_view_turn_right
      GoogleMapsBrowser.street_view_move_forward Browser.trace
    simp [hpage, hl, hf, hr]
    omega
  · unfold GoogleMapsBrowser.move_left
      GoogleMapsBrowser.street_view_turn_left
      GoogleMapsBrowser.street_view_move_forward Browser.trace
    simp [hpage, hl, hf]
  · unfold GoogleMapsBrowser.move_right
      GoogleMapsBrowser.street_view_turn_right
      GoogleMapsBrowser.street_view_move_forward Browser.trace
    simp [hpage, hr, hf]

/-- Witness for C3: the healthy world, open page, heading 40. -/
theorem lateral_move_heading_witness :
    (GoogleMapsBrowser.move_left cfgNoOracle browserHeading40).fst = true ∧
    ((GoogleMapsBrowser.move_left cfgNoOracle browserHeading40).snd).heading
      = browserHeading40.heading := by
  have h := (lateral_move_heading cfgNoOracle browserHeading40
    (by decide) (by decide)).1 (by decide) (by decide) (by decide)
  exact ⟨h.1, h.2.1⟩

/-- C2 (code bug): the module's own action prompt advertises `get_url()`
(entry 13), but `GOOGLE_MAPS_ACTIONS` omits `get_url`, so the dispatcher
rejects the advertised invocation `get_url()` as an invalid action; and
every name outside the registry is a dispatch failure returned as
`(False, "Invalid action: …")` with the browser untouched, not a crash. -/
theorem get_url_advertised_but_unregistered :
    containsSubstr GOOGLE_MAPS_ACTIONS_PROMPT "get_url()" = true ∧
    GOOGLE_MAPS_ACTIONS.contains "get_url" = false ∧
    (GoogleMapsAgent.act cfgNoOracle (some "u") browserOpen "get_url()")
      = (((false, "Invalid action: get_url")), browserOpen) ∧
    (∀ (cfg : WorldCfg) (su : Option String) (b : Browser) (name : String),
      GOOGLE_MAPS_ACTIONS.contains ((parseInvocation (pyStrip name)).fst) = false →
      (["stop", "done", "exit"].contains (pyLower (pyStrip name))) = false →
      GoogleMapsAgent.act cfg su b name
        = ((false, "Invalid action: " ++ (parseInvocation (pyStrip name)).fst), b)) := by
  refine ⟨by decide, by decide, rfl, ?_⟩
  intro cfg su b name hreg hstop
  unfold GoogleMapsAgent.act
  rw [if_neg (by simpa using hstop), if_pos (by simpa using hreg)]

/-- C6 counterexample: with a failing browser launch, `run_task`
propagates the exception to its caller (an `Except.error` outcome, not an
answer string), refuting the claim that `run` returns an explanatory
fatal-failure string. -/
theorem init_failure_raises :
    (run_task cfgInitFail "u" AgentState.fresh).fst = Except.error PyExc.launchError ∧
    ((run_task cfgInitFail "u" AgentState.fresh).snd).history = [] :=
  ⟨rfl, rfl⟩

/-- C6 amended: if the environment session cannot be established at INIT
(browser launch fails or the initial visit of `start_url` fails), the
Session is fatally terminated immediately with zero `StepRecord`s, but the
failure is surfaced by propagating the exception out of `run_task` — no
explanatory answer string is produced. -/
theorem init_failure_amended (cfg : WorldCfg) (url : String) (st : AgentState) :
    (cfg.initThrows = true →
      (run_task cfg url st).fst = Except.error PyExc.launchError ∧
      ((run_task cfg url st).snd).history = st.history) ∧
    (cfg.initThrows = false → cfg.gotoThrows = true →
      (run_task cfg url st).fst = Except.error PyExc.gotoError ∧
      ((run_task cfg url st).snd).history = st.history) := by
  constructor
  · intro h1
    unfold run_task initPhase GoogleMapsBrowser.init
    simp [h1, Browser.trace]
  · intro h1 h2
    unfold run_task initPhase GoogleMapsBrowser.init GoogleMapsBrowser.visit_page
    simp [h1, h2, Browser.trace]

/-- Witness for the amended C6. -/
theorem init_failure_amended_witness :
    (run_task cfgInitFail "u" AgentState.fresh).fst = Except.error PyExc.launchError :=
  ((init_failure_amended cfgInitFail "u" AgentState.fresh).1 (by rfl)).1

/-- C7 counterexample: when the first decision call fails at transport
level, `run_task` makes exactly one attempt (no retry: the call counter is
1) and ends in a propagated exception, not a failure answer string. -/
theorem oracle_transport_failure_raises :
    (run_task cfgNoOracle "maps" AgentState.fresh).fst
      = Except.error PyExc.transportError ∧
    ((run_task cfgNoOracle "maps" AgentState.fresh).snd).oracleCalls = 1 ∧
    ((run_task cfgNoOracle "maps" AgentState.fresh).snd).history = [] :=
  ⟨rfl, rfl, rfl⟩

/-- C7 amended: the Controller calls the oracle exactly once per step with
no retry; a transport-level failure immediately propagates out of
`run_task` as an exception (with the history unchanged), while a
format-level failure (unparseable reply) is non-fatal: `observe` returns
three empty strings, which the loop records as a failed dispatch step. -/
theorem oracle_failure_amended (cfg : WorldCfg) (url : String) (st : AgentState) :
    (cfg.initThrows = false → cfg.gotoThrows = false →
      cfg.oracle st.oracleCalls = none →
      (run_task cfg url st).fst = Except.error PyExc.transportError ∧
      ((run_task cfg url st).snd).oracleCalls = st.oracleCalls + 1 ∧
      ((run_task cfg url st).snd).history = st.history) ∧
    (∀ (st2 : AgentState) (content : String), st2.browser.pageOpen = true →
      cfg.oracle st2.oracleCalls = some content →
      parse_json_output content = parseErrorDict →
      observe cfg st2 = (Except.ok ("", "", ""),
        { st2 with oracleCalls := st2.oracleCalls + 1 })) := by
  constructor
  · intro h1 h2 h3
    unfold run_task initPhase GoogleMapsBrowser.init GoogleMapsBrowser.visit_page
      MAX_STEPS runLoop observe
    simp [h1, h2, h3, Browser.trace]
  · intro st2 content hpage horacle hparse
    unfold observe
    rw [if_neg (by simp [hpage]), horacle]
    dsimp only
    rw [hparse]
    rfl

/-- Witness for the amended C7. -/
theorem oracle_failure_amended_witness :
    (run_task cfgNoOracle "maps" AgentState.fresh).fst
      = Except.error PyExc.transportError :=
  ((oracle_failure_amended cfgNoOracle "maps" AgentState.fresh).1
    (by rfl) (by rfl) (by rfl)).1

/-- C8 counterexample: when `run_task` raises (failing browser launch),
`run_google_maps_task_api` never reaches `agent.close()`, so the browser
resource is not closed on that exit path. -/
theorem api_does_not_close_on_error :
    (run_google_maps_task_api cfgInitFail "u").fst = Except.error PyExc.launchError ∧
    ((run_google_maps_task_api cfgInitFail "u").snd).browser.closed = false :=
  ⟨rfl, rfl⟩

/-- C8 amended: `run_google_maps_task_api` closes the browser on every
normal-return path (final answer, explicit stop, budget exhaustion), but
when `run_task` raises — e.g. at INIT — there is no `try`/`finally`, the
close call is skipped, and the resource leaks. -/
theorem api_close_amended :
    (∀ (cfg : WorldCfg) (url r : String) (st' : AgentState),
      run_google_maps_task_api cfg url = (Except.ok r, st') →
      st'.browser.closed = true) ∧
    (∀ (cfg : WorldCfg) (url : String), cfg.initThrows = true →
      (run_google_maps_task_api cfg url).fst = Except.error PyExc.launchError ∧
      ((run_google_maps_task_api cfg url).snd).browser.closed = false) := by
  constructor
  · intro cfg url r st' h
    unfold run_google_maps_task_api at h
    rcases hr : run_task cfg url AgentState.fresh with ⟨res, st1⟩
    rw [hr] at h
    cases res with
    | error e => simp at h
    | ok v =>
        dsimp only at h
        have h2 := congrArg Prod.snd h
        dsimp only at h2
        rw [← h2]
        rfl
  · intro cfg url h1
    unfold run_google_maps_task_api run_task initPhase GoogleMapsBrowser.init
    simp [h1, Browser.trace, AgentState.fresh, Browser.fresh]

/-- Witness for the amended C8: a successful Session does close the
browser. -/
theorem api_close_amended_witness :
    ((run_google_maps_task_api cfgFinalAnswer "u").snd).browser.closed = true := by
  have h0 : (run_google_maps_task_api cfgFinalAnswer "u").fst
      = Except.ok "the answer" := rfl
  have h : run_google_maps_task_api cfgFinalAnswer "u"
      = (Except.ok "the answer", (run_google_maps_task_api cfgFinalAnswer "u").snd) := by
    rw [← h0]
  exact api_close_amended.1 cfgFinalAnswer "u" "the answer" _ h

/-- C9 counterexample: the registered action `back`, invoked with no open
page (a structural precondition the claim lists), reports `success=True`,
because `act` routes it through `visit_page`, which silently no-ops when
`self.page` is absent. -/
theorem back_reports_success_without_page :
    Browser.fresh.pageOpen = false ∧
    (GoogleMapsAgent.act cfgNoOracle (some "u") Browser.fresh "back()").fst
      = (true, "Executed action: back:True") :=
  ⟨rfl, rfl⟩

/-- C9 amended: with no open page, every registered environment action
except `back` (and the precondition-free `stop`) returns `success=false`
with a detail string and no exception escapes `act` (its result type is
always a `(bool, str)` pair); `back`, however, reports `success=true`
because its underlying visit is silently skipped. -/
theorem act_safe_without_page (cfg : WorldCfg) (u : String) (b : Browser)
    (hpage : b.pageOpen = false) :
    (GoogleMapsAgent.act cfg (some u) b "click_id(5)").fst.fst = false ∧
    (GoogleMapsAgent.act cfg (some u) b "enter_street_view()").fst
      = (false, "Failed to enter street view") ∧
    (GoogleMapsAgent.act cfg (some u) b "street_view_move_forward()").fst.fst = false ∧
    (GoogleMapsAgent.act cfg (some u) b "street_view_move_backward()").fst.fst = false ∧
    (GoogleMapsAgent.act cfg (some u) b "street_view_turn_left()").fst.fst = false ∧
    (GoogleMapsAgent.act cfg (some u) b "street_view_turn_right()").fst.fst = false ∧
    (GoogleMapsAgent.act cfg (some u) b "show_historical_dates()").fst.fst = false ∧
    (GoogleMapsAgent.act cfg (some u) b "select_historical_date(July 2010)").fst.fst = false ∧
    (GoogleMapsAgent.act cfg (some u) b "find_text_on_page(query)").fst.fst = false ∧
    (GoogleMapsAgent.act cfg (some u) b "click_blank_area()").fst.fst = false ∧
    (GoogleMapsAgent.act cfg (some u) b "click_marker(0)").fst.fst = false ∧
    (GoogleMapsAgent.act cfg (some u) b "flip_view()").fst.fst = false ∧
    (GoogleMapsAgent.act cfg (some u) b "move_left()").fst.fst = false ∧
    (GoogleMapsAgent.act cfg (some u) b "move_right()").fst.fst = false ∧
    (GoogleMapsAgent.act cfg (some u) b "back()").fst
      = (true, "Executed action: back:True") := by
  refine ⟨?_, ?_, ?_, ?_, ?_, ?_, ?_, ?_, ?_, ?_, ?_, ?_, ?_, ?_, ?_⟩
  · rw [show GoogleMapsAgent.act cfg (some u) b "click_id(5)"
        = GoogleMapsAgent.dispatchArg cfg (some u) "click_id" (ArgV.intV 5) b from rfl]
    unfold GoogleMapsAgent.dispatchArg GoogleMapsBrowser.click_id Browser.trace
    simp [hpage]
  · rw [show GoogleMapsAgent.act cfg (some u) b "enter_street_view()"
        = GoogleMapsAgent.dispatchNoArg cfg (some u) "enter_street_view" b from rfl]
    unfold GoogleMapsAgent.dispatchNoArg GoogleMapsBrowser.enter_street_view Browser.trace
    simp [hpage]
  · rw [show GoogleMapsAgent.act cfg (some u) b "street_view_move_forward()"
        = GoogleMapsAgent.dispatchNoArg cfg (some u) "street_view_move_forward" b from rfl]
    unfold GoogleMapsAgent.dispatchNoArg GoogleMapsBrowser.street_view_move_forward
      Browser.trace
    simp [hpage, boolActionResult]
  · rw [show GoogleMapsAgent.act cfg (some u) b "street_view_move_backward()"
        = GoogleMapsAgent.dispatchNoArg cfg (some u) "street_view_move_backward" b from rfl]
    unfold GoogleMapsAgent.dispatchNoArg GoogleMapsBrowser.street_view_move_backward
      Browser.trace
    simp [hpage, boolActionResult]
  · rw [show GoogleMapsAgent.act cfg (some u) b "street_view_turn_left()"
        = GoogleMapsAgent.dispatchNoArg cfg (some u) "street_view_turn_left" b from rfl]
    unfold GoogleMapsAgent.dispatchNoArg GoogleMapsBrowser.street_view_turn_left
      Browser.trace
    simp [hpage, boolActionResult]
  · rw [show GoogleMapsAgent.act cfg (some u) b "street_view_turn_right()"
        = GoogleMapsAgent.dispatchNoArg cfg (some u) "street_view_turn_right" b from rfl]
    unfold GoogleMapsAgent.dispatchNoArg GoogleMapsBrowser.street_view_turn_right
      Browser.trace
    simp [hpage, boolActionResult]
  · rw [show GoogleMapsAgent.act cfg (some u) b "show_historical_dates()"
        = GoogleMapsAgent.dispatchNoArg cfg (some u) "show_historical_dates" b from rfl]
    unfold GoogleMapsAgent.dispatchNoArg GoogleMapsBrowser.show_historical_dates
      Browser.trace
    simp [hpage]
  · rw [show GoogleMapsAgent.act cfg (some u) b "select_historical_date(July 2010)"
        = GoogleMapsAgent.dispatchArg cfg (some u) "select_historical_date"
            (ArgV.strV "July 2010") b from rfl]
    unfold GoogleMapsAgent.dispatchArg GoogleMapsBrowser.select_historical_date
      Browser.trace
    simp [hpage]
  · rw [show GoogleMapsAgent.act cfg (some u) b "find_text_on_page(query)"
        = GoogleMapsAgent.dispatchArg cfg (some u) "find_text_on_page"
            (ArgV.strV "query") b from rfl]
    unfold GoogleMapsAgent.dispatchArg GoogleMapsBrowser.find_text_on_page Browser.trace
    simp [hpage]
  · rw [show GoogleMapsAgent.act cfg (some u) b "click_blank_area()"
        = GoogleMapsAgent.dispatchNoArg cfg (some u) "click_blank_area" b from rfl]
    unfold GoogleMapsAgent.dispatchNoArg GoogleMapsBrowser.click_blank_area Browser.trace
    simp [hpage, boolActionResult]
  · rw [show GoogleMapsAgent.act cfg (some u) b "click_marker(0)"
        = GoogleMapsAgent.dispatchArg cfg (some u) "click_marker" (ArgV.intV 0) b from rfl]
    unfold GoogleMapsAgent.dispatchArg GoogleMapsBrowser.click_marker Browser.trace
    simp [hpage]
  · rw [show GoogleMapsAgent.act cfg (some u) b "flip_view()"
        = GoogleMapsAgent.dispatchNoArg cfg (some u) "flip_view" b from rfl]
    unfold GoogleMapsAgent.dispatchNoArg GoogleMapsBrowser.flip_view Browser.trace
    simp [hpage, boolActionResult]
  · rw [show GoogleMapsAgent.act cfg (some u) b "move_left()"
        = GoogleMapsAgent.dispatchNoArg cfg (some u) "move_left" b from rfl]
    unfold GoogleMapsAgent.dispatchNoArg GoogleMapsBrowser.move_left Browser.trace
    simp [hpage, boolActionResult]
  · rw [show GoogleMapsAgent.act cfg (some u) b "move_right()"
        = GoogleMapsAgent.dispatchNoArg cfg (some u) "move_right" b from rfl]
    unfold GoogleMapsAgent.dispatchNoArg GoogleMapsBrowser.move_right Browser.trace
    simp [hpage, boolActionResult]
  · rw [show GoogleMapsAgent.act cfg (some u) b "back()"
        = GoogleMapsAgent.dispatchNoArg cfg (some u) "back" b from rfl]
    unfold GoogleMapsAgent.dispatchNoArg GoogleMapsBrowser.visit_page Browser.trace
    simp [hpage]

/-- Witness for the amended C9, at the fresh (page-less) browser. -/
theorem act_safe_without_page_witness :
    (GoogleMapsAgent.act cfgNoOracle (some "u") Browser.fresh "move_left()").fst.fst
      = false := by
  have h := act_safe_without_page cfgNoOracle "u" Browser.fresh (by decide)
  exact h.2.2.2.2.2.2.2.2.2.2.2.2.1

/-- `takeWhile` passes over a fully satisfying prefix. -/
lemma takeWhile_append_all (p : Char → Bool) :
    ∀ (l m : List Char), l.all p = true → (l ++ m).takeWhile p = l ++ m.takeWhile p := by
  intro l
  induction l with
  | nil => intro m _; rfl
  | cons c cs ih =>
      intro m h
      rw [List.all_cons, Bool.and_eq_true] at h
      simp [List.takeWhile_cons, h.1, ih m h.2]

/-- `dropWhile` passes over a fully satisfying prefix. -/
lemma dropWhile_append_all (p : Char → Bool) :
    ∀ (l m : List Char), l.all p = true → (l ++ m).dropWhile p = m.dropWhile p := by
  intro l
  induction l with
  | nil => intro m _; rfl
  | cons c cs ih =>
      intro m h
      rw [List.all_cons, Bool.and_eq_true] at h
      simp [List.dropWhile_cons, h.1, ih m h.2]

/-- A decimal digit is not a quote character. -/
lemma digit_not_quote (c : Char) (h : isPyDigit c = true) :
    (!(c = '"' || c = sqChar)) = true := by
  simp only [Bool.not_eq_true', Bool.or_eq_false_iff, decide_eq_false_iff_not]
  refine ⟨fun hc => ?_, fun hc => ?_⟩ <;> (subst hc; exact absurd h (by decide))

/-- `show_historical_dates` records exactly its own trace entry. -/
lemma show_historical_dates_calls (cfg : WorldCfg) (b : Browser) :
    ((GoogleMapsBrowser.show_historical_dates cfg b).snd).calls
      = b.calls ++ [BrowserCall.showDates] := by
  unfold GoogleMapsBrowser.show_historical_dates Browser.trace
  dsimp only
  split_ifs <;> rfl

/-- C4 counterexample: the bare digit token in
`select_historical_date(2010)` — a string-typed action — is coerced to
the integer `2010` before reaching the browser, and the quoted digit
token in `click_marker("3")` stays a string and is rejected instead of
being coerced to an integer; both contradict type-directed coercion. -/
theorem bare_digit_coerced_for_string_action :
    (GoogleMapsAgent.act cfgNoOracle (some "u") browserOpen
        "select_historical_date(2010)").snd.calls
      = [BrowserCall.selectDate (ArgV.intV 2010)] ∧
    BrowserCall.selectDate (ArgV.intV 2010)
      ≠ BrowserCall.selectDate (ArgV.strV "2010") ∧
    (GoogleMapsAgent.act cfgNoOracle (some "u") browserOpen "click_marker(\"3\")").fst
      = (false, "Invalid argument for click_marker: 3") :=
  ⟨rfl, by decide, rfl⟩

/-- C4 amended: argument coercion in `act` depends only on the lexical
shape of the token, not on the target action's declared argument type: a
bare digit token always becomes `int` (also for the string-typed
`select_historical_date`, whose dispatch forwards whatever value was
parsed), a quoted token always stays a string, and a quoted digit string
given to `click_marker` is rejected as an invalid argument rather than
coerced. -/
theorem argument_coercion_is_lexical :
    (∀ s : String, pyIsdigit s = true →
      parseArgValue s = some (ArgV.intV ((digitsVal s.data : Nat) : Int))) ∧
    (∀ s : String, s.data.all isPyDigit = true →
      parseArgValue (String.mk ('"' :: s.data ++ ['"'])) = some (ArgV.strV s)) ∧
    (∀ (cfg : WorldCfg) (su : Option String) (v : ArgV) (b : Browser),
      ∃ rest, ((GoogleMapsAgent.dispatchArg cfg su "select_historical_date" v b).snd).calls
        = b.calls ++ BrowserCall.selectDate v :: rest) ∧
    (∀ (cfg : WorldCfg) (su : Option String) (s : String) (b : Browser),
      GoogleMapsAgent.dispatchArg cfg su "click_marker" (ArgV.strV s) b
        = ((false, "Invalid argument for click_marker: " ++ s), b)) := by
  refine ⟨?_, ?_, ?_, ?_⟩
  · intro s h
    have hne : s.data.isEmpty = false := by
      unfold pyIsdigit at h
      rw [Bool.and_eq_true, Bool.not_eq_true'] at h
      exact h.1
    unfold parseArgValue
    simp [hne, h]
  · intro s hdig
    have hq : (s.data).all (fun x => !(x = '"' || x = sqChar)) = true := by
      rw [List.all_eq_true]
      intro c hc
      exact digit_not_quote c (by rw [List.all_eq_true] at hdig; exact hdig c hc)
    have hfalse : pyIsdigit (String.mk ('"' :: s.data ++ ['"'])) = false := by
      unfold pyIsdigit
      simp [isPyDigit]
    have hdrop : (s.data ++ ['"']).dropWhile (fun x => !(x = '"' || x = sqChar))
        = ['"'] := by
      rw [dropWhile_append_all _ s.data ['"'] hq]
      rfl
    have htake : (s.data ++ ['"']).takeWhile (fun x => !(x = '"' || x = sqChar))
        = s.data := by
      rw [takeWhile_append_all _ s.data ['"'] hq]
      simp [List.takeWhile_cons]
    have hqm : quotedMatch (String.mk ('"' :: s.data ++ ['"'])) = some s := by
      have step : quotedMatch (String.mk ('"' :: s.data ++ ['"']))
          = (match (s.data ++ ['"']).dropWhile (fun x => !(x = '"' || x = sqChar)) with
             | _ :: _ =>
                 some (String.mk
                   ((s.data ++ ['"']).takeWhile (fun x => !(x = '"' || x = sqChar))))
             | [] => none) := rfl
      rw [step, hdrop, htake]
    unfold parseArgValue
    rw [if_neg (by simp), hfalse, if_neg (by simp), hqm]
  · intro cfg su v b
    rw [show GoogleMapsAgent.dispatchArg cfg su "select_historical_date" v b
        = (fun p => ((p.fst, "Selected historical date: " ++ argRender v), p.snd))
            (GoogleMapsBrowser.select_historical_date cfg v b) from rfl]
    unfold GoogleMapsBrowser.select_historical_date Browser.trace
    by_cases hp : b.pageOpen
    · by_cases hd : cfg.datePanelOpen
      · refine ⟨[], ?_⟩
        simp [hp, hd]
        split_ifs <;> rfl
      · refine ⟨[BrowserCall.showDates], ?_⟩
        simp [hp, hd]
        split_ifs <;> simp [show_historical_dates_calls]
    · refine ⟨[], ?_⟩
      simp [hp]
  · intro cfg su s b
    rfl

/-- Witness for the amended C4. -/
theorem argument_coercion_is_lexical_witness :
    parseArgValue "42" = some (ArgV.intV 42) ∧
    parseArgValue (String.mk ('"' :: "3".data ++ ['"'])) = some (ArgV.strV "3") := by
  constructor
  · exact argument_coercion_is_lexical.1 "42" (by decide)
  · exact argument_coercion_is_lexical.2.1 "3" (by decide)

/-- A backtick-free list contains no fence. -/
lemma findSubstrAux_no_backtick :
    ∀ (l : List Char) (i : Nat), l.all (fun c => !(c = '`')) = true →
      findSubstrAux ['`', '`', '`'] l i = none := by
  intro l
  induction l with
  | nil => intro i _; rfl
  | cons c cs ih =>
      intro i h
      rw [List.all_cons, Bool.and_eq_true] at h
      have hcne : ¬('`' = c) := by
        intro he
        rw [← he] at h
        exact absurd h.1 (by decide)
      have hnp : isPrefixL ['`', '`', '`'] (c :: cs) = false := by
        simp [isPrefixL, hcne]
      unfold findSubstrAux
      rw [hnp]
      simpa using ih (i + 1) h.2

/-- In `payload ++ "\n```"` with a backtick-free payload, the first fence
starts right after the payload's closing newline. -/
lemma findSubstrAux_fence_at_end :
    ∀ (l : List Char) (i : Nat), l.all (fun c => !(c = '`')) = true →
      findSubstrAux ['`', '`', '`'] (l ++ '\n' :: '`' :: '`' :: '`' :: []) i
        = some (i + l.length + 1) := by
  intro l
  induction l with
  | nil => intro i _; rfl
  | cons c cs ih =>
      intro i h
      rw [List.all_cons, Bool.and_eq_true] at h
      have hcne : ¬('`' = c) := by
        intro he
        rw [← he] at h
        exact absurd h.1 (by decide)
      have hnp : isPrefixL ['`', '`', '`']
          ((c :: cs) ++ '\n' :: '`' :: '`' :: '`' :: []) = false := by
        simp [isPrefixL, hcne]
      rw [List.cons_append]
      unfold findSubstrAux
      rw [List.cons_append] at hnp
      rw [hnp]
      simp only [Bool.false_eq_true, if_false]
      rw [ih (i + 1) h.2]
      simp only [Option.some.injEq, List.length_cons]
      omega

/-- If `stripL` fixes a list, both the leading and the trailing
whitespace trims fix it. -/
lemma stripL_self_parts (l : List Char) (h : stripL l = l) :
    l.dropWhile isPyWs = l ∧ List.rdropWhile isPyWs l = l := by
  have hs : stripL l = List.rdropWhile isPyWs (l.dropWhile isPyWs) := by
    unfold stripL dropTrailing List.rdropWhile
    rfl
  rw [hs] at h
  have e1 : (l.dropWhile isPyWs).length ≤ l.length :=
    (List.dropWhile_suffix isPyWs).length_le
  have e2 : (List.rdropWhile isPyWs (l.dropWhile isPyWs)).length
      ≤ (l.dropWhile isPyWs).length :=
    (List.rdropWhile_prefix _ _).length_le
  have hlen : (l.dropWhile isPyWs).length = l.length := by
    have := congrArg List.length h
    omega
  have h1 : l.dropWhile isPyWs = l :=
    (List.dropWhile_suffix isPyWs).sublist.eq_of_length hlen
  rw [h1] at h
  exact ⟨h1, h⟩

/-- Stripping `"\n" ++ payload ++ "\n"` recovers an already-stripped
payload. -/
lemma stripL_wrap (l : List Char) (h : stripL l = l) :
    stripL ('\n' :: l ++ ['\n']) = l := by
  obtain ⟨h1, h2⟩ := stripL_self_parts l h
  show List.rdropWhile isPyWs (('\n' :: l ++ ['\n']).dropWhile isPyWs) = l
  have hd : ('\n' :: l ++ ['\n']).dropWhile isPyWs = (l ++ ['\n']).dropWhile isPyWs := by
    rw [List.cons_append, List.dropWhile_cons, if_pos (by decide)]
  rw [hd]
  cases hl : l with
  | nil => rfl
  | cons c cs =>
      rw [hl] at h1 h2
      have hpc : isPyWs c = false := by
        by_contra hc
        rw [Bool.not_eq_false] at hc
        rw [List.dropWhile_cons, if_pos hc] at h1
        have hlen := congrArg List.length h1
        have hle : (cs.dropWhile isPyWs).length ≤ cs.length :=
          (List.dropWhile_suffix isPyWs).length_le
        simp at hlen
        omega
      have hflat : ((c :: cs) ++ ['\n']).dropWhile isPyWs = (c :: cs) ++ ['\n'] := by
        rw [List.cons_append, List.dropWhile_cons, if_neg (by simp [hpc])]
      rw [hflat, List.rdropWhile_concat_pos _ _ '\n' (by decide), h2]

/-- A reply with no backtick at all has no Markdown fence to extract. -/
lemma extractDelim_no_backtick (l : List Char)
    (hbt : l.all (fun c => !(c = '`')) = true) :
    extractDelim '`' l = none := by
  unfold extractDelim
  rw [show findSubstr ['`', '`', '`'] l = findSubstrAux ['`', '`', '`'] l 0 from rfl,
     findSubstrAux_no_backtick l 0 hbt]

/-- Extraction from a well-formed ```` ```json ```` fence around a
backtick-free, already-stripped payload recovers exactly the payload. -/
lemma extractDelim_fenced (s : String)
    (hbt : s.data.all (fun c => !(c = '`')) = true)
    (hstrip : stripL s.data = s.data) :
    extractDelim '`'
      ('`' :: '`' :: '`' :: 'j' :: 's' :: 'o' :: 'n' :: '\n'
        :: (s.data ++ '\n' :: '`' :: '`' :: '`' :: []))
      = some s.data := by
  have step : extractDelim '`'
      ('`' :: '`' :: '`' :: 'j' :: 's' :: 'o' :: 'n' :: '\n'
        :: (s.data ++ '\n' :: '`' :: '`' :: '`' :: []))
      = (match findSubstrAux ['`', '`', '`']
            ('\n' :: (s.data ++ '\n' :: '`' :: '`' :: '`' :: [])) 0 with
         | none => none
         | some m =>
             some (stripL
               (('\n' :: (s.data ++ '\n' :: '`' :: '`' :: '`' :: [])).take m))) := rfl
  rw [step]
  have h2 : findSubstrAux ['`', '`', '`']
      ('\n' :: (s.data ++ '\n' :: '`' :: '`' :: '`' :: [])) 0
      = some (s.data.length + 2) := by
    have e0 : findSubstrAux ['`', '`', '`']
        ('\n' :: (s.data ++ '\n' :: '`' :: '`' :: '`' :: [])) 0
        = findSubstrAux ['`', '`', '`'] (s.data ++ '\n' :: '`' :: '`' :: '`' :: []) 1 := rfl
    rw [e0, findSubstrAux_fence_at_end s.data 1 hbt]
    simp only [Option.some.injEq]
    omega
  rw [h2]
  show some (stripL
    (('\n' :: (s.data ++ '\n' :: '`' :: '`' :: '`' :: [])).take (s.data.length + 2)))
    = some s.data
  have htake : ('\n' :: (s.data ++ '\n' :: '`' :: '`' :: '`' :: [])).take
      (s.data.length + 2) = '\n' :: (s.data ++ ['\n']) := by
    rw [List.take_succ_cons, List.take_append 1]
    rfl
  rw [htake, ← List.cons_append, stripL_wrap s.data hstrip]

/-- C5 counterexample: a reply embedding the decision object in plain
surrounding prose (no code fence) does not parse to the object — it
yields the error dictionary — whereas the bare object parses; so
prose-embedded and bare replies do not parse identically. -/
theorem prose_embedded_reply_not_extracted :
    parse_json_output "The answer is \x7b\"observation\": \"x\"\x7d" = parseErrorDict ∧
    parse_json_output "\x7b\"observation\": \"x\"\x7d"
      = Json.jobj [("observation", Json.jstr "x")] ∧
    parseErrorDict ≠ Json.jobj [("observation", Json.jstr "x")] := by
  refine ⟨rfl, rfl, ?_⟩
  intro h
  rw [show parseErrorDict
      = Json.jobj [("error", Json.jstr "Failed to parse JSON output")] from rfl] at h
  injection h with h1
  injection h1 with h2 h3
  injection h2 with h4 h5
  exact absurd h4 (by decide)

/-- C5 amended: a decision reply that embeds the JSON object inside a
Markdown ```` ```json ```` code fence parses identically to the reply
containing only the bare object, for every payload that itself contains no
backtick and no leading or trailing whitespace; embedding in surrounding
prose without fences, by contrast, is not extracted (see the
counterexample). -/
theorem fenced_reply_parses_identically (s : String)
    (hbt : s.data.all (fun c => !(c = '`')) = true)
    (hstrip : stripL s.data = s.data) :
    parse_json_output ("```json\n" ++ s ++ "\n```") = parse_json_output s := by
  have hdata : ("```json\n" ++ s ++ "\n```").data
      = '`' :: '`' :: '`' :: 'j' :: 's' :: 'o' :: 'n' :: '\n'
          :: (s.data ++ '\n' :: '`' :: '`' :: '`' :: []) := by
    rw [String.data_append, String.data_append, List.append_assoc]
    rfl
  unfold parse_json_output
  rw [hdata, extractDelim_fenced s hbt hstrip, extractDelim_no_backtick s.data hbt]

/-- Witness for the amended C5: a concrete decision object parses the
same fenced and bare. -/
theorem fenced_reply_parses_identically_witness :
    parse_json_output ("```json\n" ++ "\x7b\"a\": 1\x7d" ++ "\n```")
      = parse_json_output "\x7b\"a\": 1\x7d" :=
  fenced_reply_parses_identically "\x7b\"a\": 1\x7d" (by decide) (by decide)

end GMap
